import Mathlib

/-!
Shallow embedding of `src/mpu6050_ros.py` (MPU6050-to-ROS bridge driver).

The script defines a class `mpu6050_PI` whose constructor configures the
sensor over an I2C bus, opens a websocket to a rosbridge server, advertises
two topics and then enters the sampling loop `send2ros`, which each
iteration reads six 16-bit big-endian words from the sensor, converts them
to signed values, scales them, stores them into two reused message
dictionaries and sends both over the websocket, then sleeps for the
remaining part of the configured delay.

Modelling conventions:
* Machine integers are `Nat`/`Int`; Python floats are modelled as `ℚ`
  (every quantity the claims mention is exactly representable).
* The I2C bus is an oracle `Nat → Nat` giving the byte returned by the
  i-th `read_byte_data` call of the process; bus traffic is recorded as a
  list of `BusEvent`s threaded through a `ProcState`.
* Python dicts are insertion-ordered association lists over a small JSON
  value type; `json.dumps` is identified with the `Json` value itself
  (the claims are about keys and payloads, not about the character-level
  serialization).
-/

/-- JSON-like values: the payloads handed to `json.dumps` in the script. -/
inductive Json where
  | str : String → Json
  | num : ℚ → Json
  | obj : List (String × Json) → Json

/-- Python dict lookup `d[k]` on an association list (first match). -/
def dictGet : List (String × Json) → String → Option Json
  | [], _ => none
  | (k', v) :: rest, k => if k' = k then some v else dictGet rest k

/-- Python dict assignment `d[k] = v`: replace in place when the key is
present (preserving insertion order), append otherwise. -/
def dictSet : List (String × Json) → String → Json → List (String × Json)
  | [], k, v => [(k, v)]
  | (k', v') :: rest, k, v =>
    if k' = k then (k, v) :: rest else (k', v') :: dictSet rest k v

/-- The statement `d[k1][k2] = v` of the script (e.g.
`self.gyro_dict['msg']['x'] = ...`): both keys exist and point at objects
in every reachable state, so the fallthrough branches are unreachable. -/
def setNested (d : Json) (k1 k2 : String) (v : Json) : Json :=
  match d with
  | .obj l =>
    match dictGet l k1 with
    | some (.obj inner) => .obj (dictSet l k1 (.obj (dictSet inner k2 v)))
    | _ => d
  | _ => d

/-- Lookup of a top-level key of a JSON object. -/
def dictGetJ : Json → String → Option Json
  | .obj l, k => dictGet l k
  | _, _ => none

/-- The list of top-level keys of a JSON object. -/
def topKeys : Json → List String
  | .obj l => l.map Prod.fst
  | _ => []

/-- `val = (high << 8) + low` from `read_word` (line 156). -/
def read_word_val (high low : Nat) : Nat := (high <<< 8) + low

/-- The two's-complement decode of `read_word_2c` (lines 159-164):
`if val >= 0x8000: return -((65535 - val) + 1) else: return val`. -/
def read_word_2c_val (val : Nat) : Int :=
  if val ≥ 0x8000 then -(((65535 : Int) - (val : Int)) + 1) else (val : Int)

/-- Python `**` on a rational base and natural exponent, written as a
structural recursion so that the kernel can evaluate it. -/
def qpow (q : ℚ) : Nat → ℚ
  | 0 => 1
  | n + 1 => qpow q n * q

/-- Python `**` on a rational base and integer exponent (a negative
exponent yields the reciprocal). -/
def zqpow (q : ℚ) : ℤ → ℚ
  | .ofNat n => qpow q n
  | .negSucc n => (qpow q (n + 1))⁻¹

/-- `self.scale_factor_gyro = 131.0/(2**int(FS_SEL))` (line 121). -/
def scale_factor_gyro (FS_SEL : Nat) : ℚ := 131 / qpow 2 FS_SEL

/-- `self.scale_factor_acc = float(2**(11-int(AFS_SEL)))` (line 126);
the exponent is a Python `int` subtraction, hence `ℤ`. -/
def scale_factor_acc (AFS_SEL : Nat) : ℚ := zqpow 2 ((11 : ℤ) - (AFS_SEL : ℤ))

/-- `curr_delay = self.delay - (time.time() - start_time)` (line 244). -/
def curr_delay (delay elapsed : ℚ) : ℚ := delay - elapsed

/-- The sleep performed at the end of an iteration (lines 244-246):
`some d` means `time.sleep(d)` is called, `none` means no sleep at all. -/
def sleep_duration (delay elapsed : ℚ) : Option ℚ :=
  if curr_delay delay elapsed > 0 then some (curr_delay delay elapsed) else none

/-! ### Address parsing: `self.address = int('0x'+str(i2c_address),0)` (line 109) -/

/-- Little-endian decimal digits of `n`, structurally recursive on a fuel
argument (so the kernel can evaluate it); `n` itself is always enough fuel. -/
def decDigitsAux : Nat → Nat → List Nat
  | 0, _ => []
  | _ + 1, 0 => []
  | fuel + 1, n + 1 => ((n + 1) % 10) :: decDigitsAux fuel ((n + 1) / 10)

/-- The character of a single decimal digit. -/
def decChar (d : Nat) : Char := Char.ofNat (48 + d)

/-- Python `str(n)` for a non-negative integer: its decimal digits,
most significant first. -/
def pyStr (n : Nat) : List Char :=
  if n = 0 then ['0'] else ((decDigitsAux n n).reverse).map decChar

/-- Value of one hexadecimal digit character, as accepted by Python `int`
with base 16 (after the `0x` prefix). -/
def hexDigitVal (c : Char) : Option Nat :=
  if '0' ≤ c ∧ c ≤ '9' then some (c.toNat - 48)
  else if 'a' ≤ c ∧ c ≤ 'f' then some (c.toNat - 97 + 10)
  else if 'A' ≤ c ∧ c ≤ 'F' then some (c.toNat - 65 + 10)
  else none

/-- Left-to-right hexadecimal accumulation of Python `int(s, 16)`. -/
def parseHexAux : List Char → Nat → Option Nat
  | [], acc => some acc
  | c :: rest, acc =>
    match hexDigitVal c with
    | some d => parseHexAux rest (acc * 16 + d)
    | none => none

/-- Python `int('0x' ++ s, 0)`: the `0x` prefix selects base 16 and at
least one digit must follow. -/
def int_0x (s : List Char) : Option Nat :=
  match s with
  | [] => none
  | _ => parseHexAux s 0

/-- The address stored by the constructor: `int('0x'+str(i2c_address),0)`. -/
def storedAddress (i2c_address : Nat) : Option Nat := int_0x (pyStr i2c_address)

/-! ### The process: constructor and sampling loop -/

/-- One bus operation performed through the smbus handle. -/
inductive BusEvent where
  | writeByte : Nat → Nat → Nat → BusEvent  -- address, register, value
  | readByte : Nat → Nat → BusEvent          -- address, register

/-- Bus-visible process state: the trace of bus operations so far and the
number of byte reads performed (the index into the byte oracle). -/
structure ProcState where
  events : List BusEvent
  reads : Nat

/-- `self.bus.read_byte_data(address, reg)`: returns the next oracle byte
and records the read. -/
def busRead (o : Nat → Nat) (address reg : Nat) (s : ProcState) : Nat × ProcState :=
  (o s.reads, { events := s.events ++ [.readByte address reg], reads := s.reads + 1 })

/-- `self.bus.write_byte_data(address, reg, v)`: records the write. -/
def busWrite (address reg v : Nat) (s : ProcState) : ProcState :=
  { s with events := s.events ++ [.writeByte address reg v] }

/-- `read_word` (lines 153-157): two byte reads, high byte first. -/
def read_word (o : Nat → Nat) (address adr : Nat) (s : ProcState) : Nat × ProcState :=
  let (high, s1) := busRead o address adr s
  let (low, s2) := busRead o address (adr + 1) s1
  (read_word_val high low, s2)

/-- `read_word_2c` (lines 159-164): `read_word` then two's-complement decode. -/
def read_word_2c (o : Nat → Nat) (address adr : Nat) (s : ProcState) : Int × ProcState :=
  let (val, s1) := read_word o address adr s
  (read_word_2c_val val, s1)

/-- Constructor parameters of `mpu6050_PI.__init__` (line 80). -/
structure Config where
  url : String
  FS_SEL : Nat
  AFS_SEL : Nat
  i2c_bus : Nat
  i2c_address : Nat
  delay : ℚ
  debug : Bool

/-- First advertise message sent by the constructor (lines 137-140). -/
def advAccel : Json :=
  .obj [("op", .str "advertise"), ("id", .str "IMU_WS_AC"),
        ("topic", .str "/MPU6050/Accel"), ("type", .str "geometry_msgs/Vector3")]

/-- Second advertise message sent by the constructor (lines 142-145). -/
def advGyro : Json :=
  .obj [("op", .str "advertise"), ("id", .str "IMU_WS_GY"),
        ("topic", .str "/MPU6050/Gyro"), ("type", .str "geometry_msgs/Vector3")]

/-- `self.accel_dict` as initialized on line 147. -/
def accel_dict_init : Json :=
  .obj [("op", .str "publish"), ("id", .str "MPU_accel"),
        ("topic", .str "/MPU6050/Accel"),
        ("msg", .obj [("x", .num 0), ("y", .num 0), ("z", .num 0)])]

/-- `self.gyro_dict` as initialized on line 149. -/
def gyro_dict_init : Json :=
  .obj [("op", .str "publish"), ("id", .str "MPU_gyro"),
        ("topic", .str "/MPU6050/Gyro"),
        ("msg", .obj [("x", .num 0), ("y", .num 0), ("z", .num 0)])]

/-- Result of running `mpu6050_PI.__init__` up to the `self.send2ros()`
call on line 151: attribute values, the messages already sent on the
websocket, and the bus trace. The constructor contains no validation of
`FS_SEL`/`AFS_SEL` and no `try`/`except`: it is a total straight-line
function of the configuration and the byte oracle. -/
structure InitResult where
  address : Nat
  scale_factor_gyro : ℚ
  scale_factor_acc : ℚ
  accel_dict : Json
  gyro_dict : Json
  sent : List Json
  proc : ProcState

/-- `mpu6050_PI.__init__` (lines 80-149), statement by statement. -/
def mpu6050_init (cfg : Config) (o : Nat → Nat) : InitResult :=
  let address := (storedAddress cfg.i2c_address).getD 0
  let s0 : ProcState := { events := [], reads := 0 }
  -- self.bus.write_byte_data(self.address, power_mgmt_1, 0)   (line 116)
  let s1 := busWrite address 0x6b 0 s0
  -- GYRO_CONFIG = self.bus.read_byte_data(self.address, 0x1B) (line 118)
  let (gyro_config, s2) := busRead o address 0x1B s1
  -- self.bus.write_byte_data(self.address, 0x1B, GYRO_CONFIG | (FS_SEL<<3))
  let s3 := busWrite address 0x1B (Nat.lor gyro_config (cfg.FS_SEL <<< 3)) s2
  -- ACCEL_CONFIG = self.bus.read_byte_data(self.address, 0x1C) (line 123)
  let (accel_config, s4) := busRead o address 0x1C s3
  -- self.bus.write_byte_data(self.address, 0x1C, ACCEL_CONFIG | (AFS_SEL<<3))
  let s5 := busWrite address 0x1C (Nat.lor accel_config (cfg.AFS_SEL <<< 3)) s4
  { address := address
    scale_factor_gyro := scale_factor_gyro cfg.FS_SEL
    scale_factor_acc := scale_factor_acc cfg.AFS_SEL
    accel_dict := accel_dict_init
    gyro_dict := gyro_dict_init
    sent := [advAccel, advGyro]
    proc := s5 }

/-- Mutable state of the `send2ros` loop between iterations. -/
structure LoopState where
  proc : ProcState
  accel_dict : Json
  gyro_dict : Json

/-- One iteration of the `while True` loop of `send2ros` (lines 185-246),
returning the updated state and the two messages sent, accel first
(lines 240-242). The debug block (lines 206-238) performs no sends and no
bus operations. -/
def send2ros_iter (address : Nat) (sfg sfa : ℚ) (o : Nat → Nat)
    (st : LoopState) : LoopState × List Json :=
  let (gyro_xout, p1) := read_word_2c o address 0x43 st.proc
  let (gyro_yout, p2) := read_word_2c o address 0x45 p1
  let (gyro_zout, p3) := read_word_2c o address 0x47 p2
  let gd := setNested st.gyro_dict "msg" "x" (.num ((gyro_xout : ℚ) / sfg))
  let gd := setNested gd "msg" "y" (.num ((gyro_yout : ℚ) / sfg))
  let gd := setNested gd "msg" "z" (.num ((gyro_zout : ℚ) / sfg))
  let (accel_xout, p4) := read_word_2c o address 0x3b p3
  let (accel_yout, p5) := read_word_2c o address 0x3d p4
  let (accel_zout, p6) := read_word_2c o address 0x3f p5
  let ad := setNested st.accel_dict "msg" "x" (.num ((accel_xout : ℚ) / sfa))
  let ad := setNested ad "msg" "y" (.num ((accel_yout : ℚ) / sfa))
  let ad := setNested ad "msg" "z" (.num ((accel_zout : ℚ) / sfa))
  ({ proc := p6, accel_dict := ad, gyro_dict := gd }, [ad, gd])

/-- The messages sent by the first `n` iterations of `send2ros`. -/
def send2ros_sends (address : Nat) (sfg sfa : ℚ) (o : Nat → Nat) :
    Nat → LoopState → List Json
  | 0, _ => []
  | n + 1, st =>
    let (st2, out) := send2ros_iter address sfg sfa o st
    out ++ send2ros_sends address sfg sfa o n st2

/-- The full sequence of messages the process sends on the websocket when
the loop runs for `n` iterations: the two advertises of the constructor
followed by the publishes of `send2ros`. -/
def program_sends (cfg : Config) (o : Nat → Nat) (n : Nat) : List Json :=
  let r := mpu6050_init cfg o
  r.sent ++ send2ros_sends r.address r.scale_factor_gyro r.scale_factor_acc o n
    { proc := r.proc, accel_dict := r.accel_dict, gyro_dict := r.gyro_dict }

/-! ### Name resolution inside `send2ros` (Python scoping, for the debug block)

In Python, a name assigned anywhere in a function body is local to that
function; a name that is neither a local, nor a module-level name, nor a
builtin raises `NameError` when read. The lists below are transcribed from
the source: every plain name assigned in the body of `send2ros`
(lines 181-253), the module-level names of the script (imports, line 65-75,
and the class, line 78), and the plain local names read by the first
statement of the debug block's maxima update (line 220), in evaluation
order. None of the names involved is a Python builtin. -/

/-- Plain names assigned somewhere in the body of `send2ros` (hence local
to it): `start_time` (187), the six axis variables (189-199), the three
maxima (221, 223, 226) and `curr_delay` (244). -/
def send2ros_assigned_names : List String :=
  ["start_time", "gyro_xout", "gyro_yout", "gyro_zout",
   "accel_xout", "accel_yout", "accel_zout",
   "accel_xout_scaled_max", "accel_yout_scaled_max", "accel_zout_scaled_max",
   "curr_delay"]

/-- Parameters of `send2ros` (line 181). -/
def send2ros_params : List String := ["self"]

/-- Module-level names of `mpu6050_ros.py`: the imports (lines 65-75) and
the class itself (line 78). -/
def module_level_names : List String :=
  ["smbus", "math", "time", "os", "websocket", "json", "sys", "argparse",
   "mpu6050_PI"]

/-- Whether a plain name read inside `send2ros` resolves at all
(local scope, then enclosing module scope; no builtin is relevant here). -/
def resolvesInSend2ros (name : String) : Bool :=
  send2ros_assigned_names.contains name || send2ros_params.contains name ||
    module_level_names.contains name

/-- The plain local names read by line 220,
`if accel_xout_scaled>accel_xout_scaled_max:`, in evaluation order
(left operand first). This is the first statement of the debug-mode
running-maxima update. -/
def debug_maxima_first_reads : List String :=
  ["accel_xout_scaled", "accel_xout_scaled_max"]

/-- Plain names assigned by the loop body before the debug block is
reached (lines 187-203; the dict stores assign no plain name). -/
def assigned_before_debug_block : List String :=
  ["start_time", "gyro_xout", "gyro_yout", "gyro_zout",
   "accel_xout", "accel_yout", "accel_zout"]

/-- Local names of `mpu6050_PI.__init__` that the spec associates with the
maxima diagnostics (lines 128-130). Being locals of `__init__`, they are
invisible from `send2ros`. -/
def init_maxima_locals : List String :=
  ["accel_xout_scaled_max", "accel_yout_scaled_max", "accel_zout_scaled_max"]

/-! ### Helper lemmas -/

theorem qpow_eq_pow (q : ℚ) (n : Nat) : qpow q n = q ^ n := by
  induction n with
  | zero => rfl
  | succ n ih => rw [qpow, ih, pow_succ]

theorem zqpow_eq_zpow (q : ℚ) (k : ℤ) : zqpow q k = q ^ k := by
  cases k with
  | ofNat n => rw [zqpow, qpow_eq_pow, Int.ofNat_eq_coe, zpow_natCast]
  | negSucc n => rw [zqpow, qpow_eq_pow, zpow_negSucc]

theorem decDigitsAux_eq_digits :
    ∀ fuel n : Nat, n ≤ fuel → decDigitsAux fuel n = Nat.digits 10 n := by
  intro fuel
  induction fuel with
  | zero =>
    intro n hn
    interval_cases n
    simp [decDigitsAux]
  | succ fuel ih =>
    intro n hn
    match n with
    | 0 => simp [decDigitsAux]
    | m + 1 =>
      rw [decDigitsAux, Nat.digits_def' (by norm_num : (1 : Nat) < 10) (Nat.succ_pos m),
        ih ((m + 1) / 10) (by omega)]

theorem hexDigitVal_decChar (d : Nat) (hd : d < 10) :
    hexDigitVal (decChar d) = some d := by
  interval_cases d <;> decide

theorem parseHexAux_map_decChar :
    ∀ (M : List Nat) (acc : Nat), (∀ d ∈ M, d < 10) →
      parseHexAux (M.map decChar) acc =
        some (M.foldl (fun a d => a * 16 + d) acc) := by
  intro M
  induction M with
  | nil => intro acc _; rfl
  | cons d M ih =>
    intro acc hM
    rw [List.map_cons, parseHexAux, hexDigitVal_decChar d (hM d (List.mem_cons_self d M))]
    show parseHexAux (List.map decChar M) (acc * 16 + d) =
      some (List.foldl (fun a d => a * 16 + d) (acc * 16 + d) M)
    exact ih (acc * 16 + d) (fun e he => hM e (List.mem_cons_of_mem d he))

theorem foldl_hex_eq_ofDigits :
    ∀ (M : List Nat) (acc : Nat),
      M.foldl (fun a d => a * 16 + d) acc =
        acc * 16 ^ M.length + Nat.ofDigits 16 M.reverse := by
  intro M
  induction M with
  | nil => intro acc; simp
  | cons d M ih =>
    intro acc
    rw [List.foldl_cons, ih (acc * 16 + d), List.reverse_cons, Nat.ofDigits_append,
      List.length_cons, List.length_reverse, Nat.ofDigits_singleton]
    ring

theorem storedAddress_eq_ofDigits (n : Nat) :
    storedAddress n = some (Nat.ofDigits 16 (Nat.digits 10 n)) := by
  rcases Nat.eq_zero_or_pos n with h0 | hpos
  · subst h0
    rw [Nat.digits_zero, Nat.ofDigits_nil]
    decide
  · have hne : n ≠ 0 := Nat.pos_iff_ne_zero.mp hpos
    have hdig : decDigitsAux n n = Nat.digits 10 n := decDigitsAux_eq_digits n n le_rfl
    have hlt : ∀ d ∈ (Nat.digits 10 n).reverse, d < 10 := by
      intro d hd
      exact Nat.digits_lt_base (by norm_num) (List.mem_reverse.mp hd)
    have hnil : Nat.digits 10 n ≠ [] := Nat.digits_ne_nil_iff_ne_zero.mpr hne
    show int_0x (pyStr n) = some (Nat.ofDigits 16 (Nat.digits 10 n))
    rw [pyStr, if_neg hne, hdig]
    rcases hrev : (Nat.digits 10 n).reverse with _ | ⟨c, cs⟩
    · exact absurd (List.reverse_eq_nil_iff.mp hrev) hnil
    · have hlt' : ∀ d ∈ c :: cs, d < 10 := hrev ▸ hlt
      have hback : (c :: cs).reverse = Nat.digits 10 n := by
        rw [← hrev, List.reverse_reverse]
      rw [List.map_cons]
      show parseHexAux (decChar c :: List.map decChar cs) 0 =
        some (Nat.ofDigits 16 (Nat.digits 10 n))
      rw [← List.map_cons, parseHexAux_map_decChar _ 0 hlt',
        foldl_hex_eq_ofDigits, hback, Nat.zero_mul, Nat.zero_add]

/-- A well-formed publish message record: exactly the keys
`op`, `id`, `topic`, `msg`, the latter an object with exactly the numeric
keys `x`, `y`, `z`. Both reused dictionaries of the script have this
shape at creation and keep it under the updates of `send2ros_iter`. -/
def pubShape (idv topicv : String) (d : Json) : Prop :=
  ∃ x y z : ℚ,
    d = .obj [("op", .str "publish"), ("id", .str idv), ("topic", .str topicv),
              ("msg", .obj [("x", .num x), ("y", .num y), ("z", .num z)])]

theorem pubShape_accel_dict_init : pubShape "MPU_accel" "/MPU6050/Accel" accel_dict_init :=
  ⟨0, 0, 0, rfl⟩

theorem pubShape_gyro_dict_init : pubShape "MPU_gyro" "/MPU6050/Gyro" gyro_dict_init :=
  ⟨0, 0, 0, rfl⟩

theorem pubShape_setNested_x (i t : String) (d : Json) (v : ℚ)
    (h : pubShape i t d) : pubShape i t (setNested d "msg" "x" (.num v)) := by
  obtain ⟨x, y, z, rfl⟩ := h
  exact ⟨v, y, z, rfl⟩

theorem pubShape_setNested_y (i t : String) (d : Json) (v : ℚ)
    (h : pubShape i t d) : pubShape i t (setNested d "msg" "y" (.num v)) := by
  obtain ⟨x, y, z, rfl⟩ := h
  exact ⟨x, v, z, rfl⟩

theorem pubShape_setNested_z (i t : String) (d : Json) (v : ℚ)
    (h : pubShape i t d) : pubShape i t (setNested d "msg" "z" (.num v)) := by
  obtain ⟨x, y, z, rfl⟩ := h
  exact ⟨x, y, v, rfl⟩

/-- One loop iteration: both reused dictionaries keep their publish shape
and both messages it sends have one of the two shapes. -/
theorem send2ros_iter_shape (address : Nat) (sfg sfa : ℚ) (o : Nat → Nat)
    (st : LoopState)
    (ha : pubShape "MPU_accel" "/MPU6050/Accel" st.accel_dict)
    (hg : pubShape "MPU_gyro" "/MPU6050/Gyro" st.gyro_dict) :
    pubShape "MPU_accel" "/MPU6050/Accel" (send2ros_iter address sfg sfa o st).1.accel_dict ∧
    pubShape "MPU_gyro" "/MPU6050/Gyro" (send2ros_iter address sfg sfa o st).1.gyro_dict ∧
    ∀ m ∈ (send2ros_iter address sfg sfa o st).2,
      pubShape "MPU_accel" "/MPU6050/Accel" m ∨ pubShape "MPU_gyro" "/MPU6050/Gyro" m := by
  obtain ⟨p, ad, gd⟩ := st
  have ha2 : pubShape "MPU_accel" "/MPU6050/Accel"
      (send2ros_iter address sfg sfa o ⟨p, ad, gd⟩).1.accel_dict := by
    exact pubShape_setNested_z _ _ _ _ (pubShape_setNested_y _ _ _ _
      (pubShape_setNested_x _ _ _ _ ha))
  have hg2 : pubShape "MPU_gyro" "/MPU6050/Gyro"
      (send2ros_iter address sfg sfa o ⟨p, ad, gd⟩).1.gyro_dict := by
    exact pubShape_setNested_z _ _ _ _ (pubShape_setNested_y _ _ _ _
      (pubShape_setNested_x _ _ _ _ hg))
  refine ⟨ha2, hg2, ?_⟩
  intro m hm
  have hsends : (send2ros_iter address sfg sfa o ⟨p, ad, gd⟩).2 =
      [(send2ros_iter address sfg sfa o ⟨p, ad, gd⟩).1.accel_dict,
       (send2ros_iter address sfg sfa o ⟨p, ad, gd⟩).1.gyro_dict] := rfl
  rw [hsends] at hm
  rcases List.mem_pair.mp hm with h | h
  · exact Or.inl (h ▸ ha2)
  · exact Or.inr (h ▸ hg2)

/-- Unfolding of one step of `send2ros_sends`. -/
theorem send2ros_sends_succ (address : Nat) (sfg sfa : ℚ) (o : Nat → Nat)
    (n : Nat) (st : LoopState) :
    send2ros_sends address sfg sfa o (n + 1) st =
      (send2ros_iter address sfg sfa o st).2 ++
        send2ros_sends address sfg sfa o n (send2ros_iter address sfg sfa o st).1 := by
  rw [send2ros_sends]

/-- Every message sent by the loop has one of the two publish shapes. -/
theorem send2ros_sends_shape (address : Nat) (sfg sfa : ℚ) (o : Nat → Nat) :
    ∀ (n : Nat) (st : LoopState),
      pubShape "MPU_accel" "/MPU6050/Accel" st.accel_dict →
      pubShape "MPU_gyro" "/MPU6050/Gyro" st.gyro_dict →
      ∀ m ∈ send2ros_sends address sfg sfa o n st,
        pubShape "MPU_accel" "/MPU6050/Accel" m ∨
          pubShape "MPU_gyro" "/MPU6050/Gyro" m := by
  intro n
  induction n with
  | zero =>
    intro st _ _ m hm
    simp [send2ros_sends] at hm
  | succ n ih =>
    intro st ha hg m hm
    rw [send2ros_sends_succ] at hm
    obtain ⟨ha2, hg2, hout⟩ := send2ros_iter_shape address sfg sfa o st ha hg
    rcases List.mem_append.mp hm with h | h
    · exact hout m h
    · exact ih (send2ros_iter address sfg sfa o st).1 ha2 hg2 m h

/-- `program_sends` unfolded to its first two advertise messages followed
by the loop messages started from the constructor's state. -/
theorem program_sends_eq (cfg : Config) (o : Nat → Nat) (n : Nat) :
    program_sends cfg o n =
      advAccel :: advGyro ::
        send2ros_sends ((storedAddress cfg.i2c_address).getD 0)
          (scale_factor_gyro cfg.FS_SEL) (scale_factor_acc cfg.AFS_SEL) o n
          { proc := (mpu6050_init cfg o).proc,
            accel_dict := accel_dict_init, gyro_dict := gyro_dict_init } := rfl

/-- Bounds of the two's-complement decode on 16-bit inputs. -/
theorem read_word_2c_val_bounds (v : Nat) (hv : v ≤ 65535) :
    -32768 ≤ read_word_2c_val v ∧ read_word_2c_val v ≤ 32767 := by
  rw [read_word_2c_val]
  split_ifs with h <;> constructor <;> omega

/-! ### Concrete fixtures used by the witnesses and the counterexample -/

/-- A concrete in-range configuration (the script's defaults). -/
def cfg0 : Config :=
  { url := "localhost", FS_SEL := 0, AFS_SEL := 3, i2c_bus := 1,
    i2c_address := 68, delay := 1 / 10, debug := false }

/-- The same configuration with the out-of-range gyro selector 4. -/
def cfg_fs4 : Config :=
  { url := "localhost", FS_SEL := 4, AFS_SEL := 3, i2c_bus := 1,
    i2c_address := 68, delay := 1 / 10, debug := false }

/-- A byte oracle on which every bus read returns 0. -/
def o0 : Nat → Nat := fun _ => 0

/-- The third message of a one-iteration run on `cfg0`/`o0`
(the first publish message, index 2 of `program_sends`). -/
def firstPublish0 : Json := (program_sends cfg0 o0 1).getD 2 (Json.num 0)

/-! ### The claims -/

/-- C1: for every 16-bit `v` produced by `read_word`, `read_word_2c`
returns `v` when `v < 0x8000` and `-((65535 - v) + 1)` when
`v ≥ 0x8000`, the latter equal to `v - 65536`; in particular
`decode(0x0010) = 16` and `decode(0xFFF0) = -16`. -/
theorem C1_read_word_2c_decode (v : Nat) (hv : v ≤ 65535) :
    ((v < 0x8000 → read_word_2c_val v = (v : Int)) ∧
     (0x8000 ≤ v →
        read_word_2c_val v = -(((65535 : Int) - (v : Int)) + 1) ∧
        read_word_2c_val v = (v : Int) - 65536)) ∧
    read_word_2c_val 0x0010 = 16 ∧ read_word_2c_val 0xFFF0 = -16 := by
  refine ⟨⟨?_, ?_⟩, by decide, by decide⟩
  · intro hlt
    rw [read_word_2c_val, if_neg (by omega)]
  · intro hge
    rw [read_word_2c_val, if_pos (by omega)]
    exact ⟨rfl, by omega⟩

theorem C1_read_word_2c_decode_witness :
    read_word_2c_val 0xFFF0 = -(((65535 : Int) - ((0xFFF0 : Nat) : Int)) + 1) ∧
    read_word_2c_val 0xFFF0 = ((0xFFF0 : Nat) : Int) - 65536 :=
  (C1_read_word_2c_decode 0xFFF0 (by norm_num)).1.2 (by norm_num)

/-- C2: the gyro scale factor is `131.0 / 2^FS_SEL` and the accel scale
factor is `2^(11 - AFS_SEL)` for every selector in {0,1,2,3}; in
particular `gyroScale(0) = 131.0`, `gyroScale(3) = 16.375`,
`accelScale(0) = 2048.0` and `accelScale(3) = 256.0`. -/
theorem C2_scale_factors :
    (∀ F : Nat, scale_factor_gyro F = 131 / (2 : ℚ) ^ F) ∧
    (∀ A : Nat, A ≤ 3 → scale_factor_acc A = (2 : ℚ) ^ (11 - A)) ∧
    scale_factor_gyro 0 = 131 ∧ scale_factor_gyro 1 = 65.5 ∧
    scale_factor_gyro 2 = 32.75 ∧ scale_factor_gyro 3 = 16.375 ∧
    scale_factor_acc 0 = 2048 ∧ scale_factor_acc 1 = 1024 ∧
    scale_factor_acc 2 = 512 ∧ scale_factor_acc 3 = 256 := by
  have hg : ∀ F : Nat, scale_factor_gyro F = 131 / (2 : ℚ) ^ F := by
    intro F
    rw [scale_factor_gyro, qpow_eq_pow]
  have hacc : ∀ A : Nat, A ≤ 3 → scale_factor_acc A = (2 : ℚ) ^ (11 - A) := by
    intro A hA
    rw [scale_factor_acc, zqpow_eq_zpow]
    interval_cases A <;> norm_num
  refine ⟨hg, hacc, ?_, ?_, ?_, ?_, ?_, ?_, ?_, ?_⟩ <;>
    first
      | (rw [hg]; norm_num)
      | (rw [hacc _ (by norm_num)]; norm_num)

theorem C2_scale_factors_witness :
    scale_factor_acc 3 = (2 : ℚ) ^ (11 - 3) ∧ scale_factor_gyro 0 = 131 :=
  ⟨C2_scale_factors.2.1 3 (by norm_num), C2_scale_factors.2.2.1⟩

/-- C4: each iteration computes the remaining time as the configured
delay minus the elapsed time; when it is positive the loop sleeps exactly
that long, otherwise (elapsed ≥ delay) it performs no sleep, and in
particular no sleep of negative duration ever happens. -/
theorem C4_sleep_compensation (delay elapsed : ℚ) :
    curr_delay delay elapsed = delay - elapsed ∧
    (elapsed < delay → sleep_duration delay elapsed = some (delay - elapsed)) ∧
    (delay ≤ elapsed → sleep_duration delay elapsed = none) ∧
    (∀ d : ℚ, sleep_duration delay elapsed = some d → 0 < d) := by
  refine ⟨rfl, ?_, ?_, ?_⟩
  · intro h
    rw [sleep_duration, if_pos (by rw [curr_delay]; linarith), curr_delay]
  · intro h
    rw [sleep_duration, if_neg (by rw [curr_delay]; intro hc; linarith)]
  · intro d hd
    rw [sleep_duration] at hd
    by_cases h : curr_delay delay elapsed > 0
    · rw [if_pos h] at hd
      cases hd
      exact h
    · rw [if_neg h] at hd
      exact absurd hd (by simp)

theorem C4_sleep_compensation_witness :
    sleep_duration (1 / 10) (1 / 20) = some (1 / 10 - 1 / 20) ∧
    sleep_duration (1 / 10) (3 / 10) = none :=
  ⟨(C4_sleep_compensation (1 / 10) (1 / 20)).2.1 (by norm_num),
   (C4_sleep_compensation (1 / 10) (3 / 10)).2.2.1 (by norm_num)⟩

/-- C7: the stored device address is the decimal digit string of the CLI
input reinterpreted as hexadecimal digits (`int('0x'+str(n),0)`), i.e.
the base-16 value of the base-10 digits of `n`; input 68 is stored as
104 = 0x68, not as 68. -/
theorem C7_address_parsing :
    (∀ n : Nat, storedAddress n = some (Nat.ofDigits 16 (Nat.digits 10 n))) ∧
    storedAddress 68 = some 104 ∧ storedAddress 104 = some 260 :=
  ⟨storedAddress_eq_ofDigits, by decide, by decide⟩

/-- C8: the claim describes the intended debug diagnostics, but the debug
branch cannot run: its first maxima statement (line 220) reads the plain
name `accel_xout_scaled` first, and that name is assigned nowhere in
`send2ros`, is not a parameter, and is not a module-level name, so Python
raises `NameError` there on the first debug iteration. The `__init__`
locals of lines 128-130 cannot supply the maxima either, and even the
maxima names, though local to `send2ros`, are read before any assignment
to them has executed. -/
theorem C8_debug_maxima_name_error :
    debug_maxima_first_reads.head? = some "accel_xout_scaled" ∧
    resolvesInSend2ros "accel_xout_scaled" = false ∧
    send2ros_assigned_names.contains "accel_xout_scaled_max" = true ∧
    assigned_before_debug_block.contains "accel_xout_scaled_max" = false ∧
    init_maxima_locals.contains "accel_xout_scaled_max" = true := by
  decide

/-- C9: with bus bytes in [0,255], `read_word` yields a value in
[0,65535] and `read_word_2c` a signed value in [-32768,32767]; the value
the loop feeds to the scaling division is exactly such a
`read_word_2c` result. -/
theorem C9_signed_range (high low : Nat) (hh : high ≤ 255) (hl : low ≤ 255)
    (o : Nat → Nat) (ho : ∀ i, o i ≤ 255) (address adr : Nat) (s : ProcState) :
    read_word_val high low ≤ 65535 ∧
    (-32768 ≤ read_word_2c_val (read_word_val high low) ∧
      read_word_2c_val (read_word_val high low) ≤ 32767) ∧
    (-32768 ≤ (read_word_2c o address adr s).1 ∧
      (read_word_2c o address adr s).1 ≤ 32767) := by
  have hval : ∀ a b : Nat, a ≤ 255 → b ≤ 255 → read_word_val a b ≤ 65535 := by
    intro a b ha hb
    rw [read_word_val, Nat.shiftLeft_eq]
    omega
  have h1 := hval high low hh hl
  have hfst : (read_word_2c o address adr s).1 =
      read_word_2c_val (read_word_val (o s.reads) (o (s.reads + 1))) := rfl
  refine ⟨h1, read_word_2c_val_bounds _ h1, ?_⟩
  rw [hfst]
  exact read_word_2c_val_bounds _ (hval _ _ (ho s.reads) (ho (s.reads + 1)))

theorem C9_signed_range_witness :
    read_word_val 255 255 ≤ 65535 ∧
    (-32768 ≤ read_word_2c_val (read_word_val 255 255) ∧
      read_word_2c_val (read_word_val 255 255) ≤ 32767) ∧
    (-32768 ≤ (read_word_2c o0 104 0x43 { events := [], reads := 0 }).1 ∧
      (read_word_2c o0 104 0x43 { events := [], reads := 0 }).1 ≤ 32767) :=
  C9_signed_range 255 255 (by norm_num) (by norm_num) o0
    (fun _ => Nat.zero_le 255) 104 0x43 { events := [], reads := 0 }

/-- C10: with equal configurations (debug off) and byte oracles that
agree read for read, two runs send identical message sequences. -/
theorem C10_determinism (c1 c2 : Config) (o1 o2 : Nat → Nat) (n : Nat)
    (_hd1 : c1.debug = false) (_hd2 : c2.debug = false)
    (hc : c1 = c2) (ho : ∀ i, o1 i = o2 i) :
    program_sends c1 o1 n = program_sends c2 o2 n := by
  subst hc
  rw [funext ho]

theorem C10_determinism_witness :
    program_sends cfg0 o0 1 = program_sends cfg0 o0 1 :=
  C10_determinism cfg0 cfg0 o0 o0 1 rfl rfl rfl (fun _ => rfl)

/-- C3 counterexample: with the out-of-range selector `FS_SEL = 4` the
constructor does not stop before bus I/O — the script contains no
`ConfigError` and no selector validation at all (its `__init__` is
straight-line code), so construction performs its full five-operation
bus protocol, OR-ing `4 << 3 = 0x20` into the gyro config register, and
completes, sending both advertises. -/
theorem C3_config_rejection_counterexample :
    (mpu6050_init cfg_fs4 o0).proc.events =
      [.writeByte 104 0x6b 0, .readByte 104 0x1B, .writeByte 104 0x1B 0x20,
       .readByte 104 0x1C, .writeByte 104 0x1C 0x18] ∧
    (mpu6050_init cfg_fs4 o0).sent = [advAccel, advGyro] :=
  ⟨rfl, rfl⟩

/-- C3 amended: for `FS_SEL` or `AFS_SEL` outside {0,1,2,3} the
constructor performs no validation and raises no `ConfigError`: it
executes exactly the same five bus operations as for in-range selectors,
writing `read-back | (selector << 3)` into the config registers, and then
advertises both topics. -/
theorem C3_no_validation_amended (cfg : Config) (o : Nat → Nat)
    (_hout : 3 < cfg.FS_SEL ∨ 3 < cfg.AFS_SEL) :
    (mpu6050_init cfg o).proc.events =
      [.writeByte ((storedAddress cfg.i2c_address).getD 0) 0x6b 0,
       .readByte ((storedAddress cfg.i2c_address).getD 0) 0x1B,
       .writeByte ((storedAddress cfg.i2c_address).getD 0) 0x1B
         (Nat.lor (o 0) (cfg.FS_SEL <<< 3)),
       .readByte ((storedAddress cfg.i2c_address).getD 0) 0x1C,
       .writeByte ((storedAddress cfg.i2c_address).getD 0) 0x1C
         (Nat.lor (o 1) (cfg.AFS_SEL <<< 3))] ∧
    (mpu6050_init cfg o).sent = [advAccel, advGyro] :=
  ⟨rfl, rfl⟩

theorem C3_no_validation_amended_witness :
    (mpu6050_init cfg_fs4 o0).proc.events =
      [.writeByte ((storedAddress cfg_fs4.i2c_address).getD 0) 0x6b 0,
       .readByte ((storedAddress cfg_fs4.i2c_address).getD 0) 0x1B,
       .writeByte ((storedAddress cfg_fs4.i2c_address).getD 0) 0x1B
         (Nat.lor (o0 0) (cfg_fs4.FS_SEL <<< 3)),
       .readByte ((storedAddress cfg_fs4.i2c_address).getD 0) 0x1C,
       .writeByte ((storedAddress cfg_fs4.i2c_address).getD 0) 0x1C
         (Nat.lor (o0 1) (cfg_fs4.AFS_SEL <<< 3))] ∧
    (mpu6050_init cfg_fs4 o0).sent = [advAccel, advGyro] :=
  C3_no_validation_amended cfg_fs4 o0 (Or.inl (by norm_num [cfg_fs4]))

/-- C5: every message sent with operation-tag "publish" has exactly the
keys {op,id,topic,msg}, and its msg value exactly the keys {x,y,z}, each
bound to a number; the loop overwrites only msg.x, msg.y, msg.z of the
two reused records. -/
theorem C5_message_shape (cfg : Config) (o : Nat → Nat) (n i : Nat) (m : Json)
    (hm : (program_sends cfg o n).get? i = some m)
    (hop : dictGetJ m "op" = some (.str "publish")) :
    topKeys m = ["op", "id", "topic", "msg"] ∧
    ∃ x y z : ℚ, dictGetJ m "msg" =
      some (.obj [("x", .num x), ("y", .num y), ("z", .num z)]) := by
  have hmem : m ∈ program_sends cfg o n := List.get?_mem hm
  rw [program_sends_eq] at hmem
  rcases List.mem_cons.mp hmem with h | hmem2
  · subst h
    simp [dictGetJ, dictGet, advAccel] at hop
  rcases List.mem_cons.mp hmem2 with h | hmem3
  · subst h
    simp [dictGetJ, dictGet, advGyro] at hop
  have hshape := send2ros_sends_shape ((storedAddress cfg.i2c_address).getD 0)
    (scale_factor_gyro cfg.FS_SEL) (scale_factor_acc cfg.AFS_SEL) o n
    { proc := (mpu6050_init cfg o).proc,
      accel_dict := accel_dict_init, gyro_dict := gyro_dict_init }
    pubShape_accel_dict_init pubShape_gyro_dict_init m hmem3
  rcases hshape with ⟨x, y, z, rfl⟩ | ⟨x, y, z, rfl⟩
  · exact ⟨rfl, x, y, z, rfl⟩
  · exact ⟨rfl, x, y, z, rfl⟩

theorem C5_message_shape_witness :
    topKeys firstPublish0 = ["op", "id", "topic", "msg"] ∧
    ∃ x y z : ℚ, dictGetJ firstPublish0 "msg" =
      some (.obj [("x", .num x), ("y", .num y), ("z", .num z)]) :=
  C5_message_shape cfg0 o0 1 2 firstPublish0 rfl rfl

/-- C6: no publish message for a topic is sent before that topic's
advertise message: any publish at position i of the send sequence is
preceded (at position 0 or 1) by the advertise for its topic. -/
theorem C6_advertise_before_publish (cfg : Config) (o : Nat → Nat) (n i : Nat)
    (m : Json)
    (hm : (program_sends cfg o n).get? i = some m)
    (hop : dictGetJ m "op" = some (.str "publish")) :
    (dictGetJ m "topic" = some (.str "/MPU6050/Accel") →
      ∃ j, j < i ∧ (program_sends cfg o n).get? j = some advAccel ∧
        dictGetJ advAccel "op" = some (.str "advertise") ∧
        dictGetJ advAccel "topic" = some (.str "/MPU6050/Accel")) ∧
    (dictGetJ m "topic" = some (.str "/MPU6050/Gyro") →
      ∃ j, j < i ∧ (program_sends cfg o n).get? j = some advGyro ∧
        dictGetJ advGyro "op" = some (.str "advertise") ∧
        dictGetJ advGyro "topic" = some (.str "/MPU6050/Gyro")) := by
  rcases i with _ | (_ | i)
  · rw [program_sends_eq, List.get?_cons_zero] at hm
    injection hm with h
    subst h
    simp [dictGetJ, dictGet, advAccel] at hop
  · rw [program_sends_eq, List.get?_cons_succ, List.get?_cons_zero] at hm
    injection hm with h
    subst h
    simp [dictGetJ, dictGet, advGyro] at hop
  · refine ⟨fun _ => ⟨0, by omega, rfl, rfl, rfl⟩,
      fun _ => ⟨1, by omega, rfl, rfl, rfl⟩⟩

theorem C6_advertise_before_publish_witness :
    ∃ j, j < 2 ∧ (program_sends cfg0 o0 1).get? j = some advAccel ∧
      dictGetJ advAccel "op" = some (.str "advertise") ∧
      dictGetJ advAccel "topic" = some (.str "/MPU6050/Accel") :=
  (C6_advertise_before_publish cfg0 o0 1 2 firstPublish0 rfl rfl).1 rfl
